import Mathlib

/-!
Formal model of the reverse-tunnel script ssh_reverse.py.

The file embeds, as executable Lean definitions, the parts of the
SSHReverse class that the verified properties talk about:

* the port binder loop `_try_bind_server_port` (as `tryBindAux` and
  `tryBindPort`, with the transport responses supplied by an oracle
  function and the unbounded while-loop made total with fuel);
* the constructor normalisation of the bind_port argument (as
  `normalizeBindPort` over a small universe `PyVal` of Python values);
* the endpoint parser `get_host_port`;
* the mutable object state (as the structure `SSHReverse`) together
  with the state-passing semantics of `create` and `remove`, and the
  property accessors `status_file` and `client_extra_prop`;
* the per-connection relay `handler` copy loop (as `handlerLoop` over a
  script of per-iteration events).

External effects (paramiko calls, sockets, threads) are represented by
oracles describing how every call would answer, and by effect traces
recording which calls the code performs.
-/

namespace SshRev

/-- Python-level exceptions that the modelled code can raise. -/
inductive PyErr
  | typeError
  | valueError
  | indexError
  | connectError
  | destUnreachable
  | exhaustedRange
  | forwardOtherError
deriving DecidableEq, Repr

/-- Answer of transport.request_port_forward for one candidate port:
success, a paramiko.SSHException (port unavailable), or any other
exception. -/
inductive BindResp
  | ok
  | sshExc
  | otherExc
deriving DecidableEq, Repr

/-- How the binder loop ends: a bound port, the exhausted-range
exception, an immediately re-raised other exception, or out of fuel
(the Python loop would still be running). -/
inductive BindOutcome
  | bound (port : Int)
  | exhausted
  | otherError
  | fuelOut
deriving DecidableEq, Repr

/-- The body of the while-loop of _try_bind_server_port.  `mn`, `mx`,
`tp` are bind_port_min, bind_port_max, bind_port_try; `resp` tells how
the transport answers a request for each port; the second list
component of the result records every port actually probed, in order.
The candidate update mirrors the source exactly: first
`if port_try < bind_port_max: port_try += 1`, then
`if port_try == bind_port_max: port_try = bind_port_min`, then
`if port_try == bind_port_try: raise`. -/
def tryBindAux (mn mx tp : Int) (resp : Int → BindResp) :
    Nat → Int → List Int × BindOutcome
  | 0, _ => ([], BindOutcome.fuelOut)
  | Nat.succ fuel, c =>
    match resp c with
    | BindResp.ok => ([c], BindOutcome.bound c)
    | BindResp.otherExc => ([c], BindOutcome.otherError)
    | BindResp.sshExc =>
      let c1 := if c < mx then c + 1 else c
      let c2 := if c1 = mx then mn else c1
      if c2 = tp then ([c], BindOutcome.exhausted)
      else
        let r := tryBindAux mn mx tp resp fuel c2
        (c :: r.1, r.2)

/-- _try_bind_server_port: start the loop at bind_port_try. -/
def tryBindPort (mn mx tp : Int) (resp : Int → BindResp) (fuel : Nat) :
    List Int × BindOutcome :=
  tryBindAux mn mx tp resp fuel tp

/-- A small universe of Python runtime values, enough for the shapes
the constructor can receive as bind_port: an integer, a string (as a
list of characters), None, or a tuple. -/
inductive PyVal
  | int (n : Int)
  | str (s : List Char)
  | pynone
  | tuple (xs : List PyVal)

/-- Discriminator for the Python `is None` test. -/
def isPyNone : PyVal → Bool
  | PyVal.pynone => true
  | _ => false

/-- Python len(): defined for strings and tuples, a TypeError
(modelled as no answer) for int and None. -/
def pyLen : PyVal → Option Nat
  | PyVal.int _ => Option.none
  | PyVal.str s => some s.length
  | PyVal.pynone => Option.none
  | PyVal.tuple xs => some xs.length

/-- Python v[i] for a non-negative index: a one-character string for a
string, the element for a tuple, a TypeError for unsubscriptable
values, an IndexError past the end. -/
def pyGetItem : PyVal → Nat → Except PyErr PyVal
  | PyVal.int _, _ => Except.error PyErr.typeError
  | PyVal.pynone, _ => Except.error PyErr.typeError
  | PyVal.str s, i =>
    match s.get? i with
    | some ch => Except.ok (PyVal.str [ch])
    | Option.none => Except.error PyErr.indexError
  | PyVal.tuple xs, i =>
    match xs.get? i with
    | some v => Except.ok v
    | Option.none => Except.error PyErr.indexError

/-- The bind_port normalisation in SSHReverse.__init__:
`if bind_port is None or len(bind_port) != 3: bind_port = [bind_port]*3`
followed by taking bind_port[0], bind_port[1], bind_port[2] as
(bind_port_min, bind_port_max, bind_port_try).  The `or` is
short-circuiting, so len() is only reached for non-None values, where
it raises TypeError on an int. -/
def normalizeBindPort (bp : PyVal) : Except PyErr (PyVal × PyVal × PyVal) :=
  if isPyNone bp then Except.ok (bp, bp, bp)
  else
    match pyLen bp with
    | Option.none => Except.error PyErr.typeError
    | some n =>
      if n ≠ 3 then Except.ok (bp, bp, bp)
      else do
        let a ← pyGetItem bp 0
        let b ← pyGetItem bp 1
        let c ← pyGetItem bp 2
        Except.ok (a, b, c)

/-- Split a string at the first colon, like str.split with maxsplit 1:
no answer when the string has no colon. -/
def splitFirstColon : List Char → Option (List Char × List Char)
  | [] => Option.none
  | ch :: rest =>
    if ch = ':' then some ([], rest)
    else
      match splitFirstColon rest with
      | Option.none => Option.none
      | some p => some (ch :: p.1, p.2)

/-- Accumulate decimal digits; no answer on a non-digit character. -/
def digitsToNatAux : List Char → Nat → Option Nat
  | [], acc => some acc
  | ch :: rest, acc =>
    if ch.isDigit then digitsToNatAux rest (acc * 10 + (ch.toNat - 48))
    else Option.none

/-- Python int() applied to a string: optional surrounding spaces, an
optional sign, then a nonempty run of decimal digits; anything else is
a ValueError (modelled as no answer). -/
def pyIntOfString (s : List Char) : Option Int :=
  let s1 := s.dropWhile (fun ch => ch = ' ')
  let s2 := (s1.reverse.dropWhile (fun ch => ch = ' ')).reverse
  match s2 with
  | [] => Option.none
  | '-' :: rest =>
    if rest = [] then Option.none
    else (digitsToNatAux rest 0).map (fun n => -(n : Int))
  | '+' :: rest =>
    if rest = [] then Option.none
    else (digitsToNatAux rest 0).map (fun n => (n : Int))
  | l => (digitsToNatAux l 0).map (fun n => (n : Int))

/-- get_host_port: `args = (spec.split(chr(58), 1) + [default_port])[:2];
args[1] = int(args[1])`.  Without a colon args[1] is the integer
default_port and int() is the identity on it; with a colon args[1] is
the text after the first colon and int() can raise ValueError. -/
def get_host_port (spec : List Char) (default_port : Int) :
    Except PyErr (List Char × Int) :=
  match splitFirstColon spec with
  | Option.none => Except.ok (spec, default_port)
  | some p =>
    match pyIntOfString p.2 with
    | some n => Except.ok (p.1, n)
    | Option.none => Except.error PyErr.valueError

/-- The metadata record appended by the client_extra setter:
((server_ip, server_port), status_file, (remote_ip, remote_port)). -/
structure Extra where
  serverAddr : List Char × Int
  statusFile : List Char
  remoteAddr : List Char × Int
deriving DecidableEq, Repr

/-- The mutable attributes of an SSHReverse object.  Clients
(paramiko.SSHClient objects) are identified by the numbers handed out
by next_id; `closed` records, in order, the ids of clients whose close
method has been called.  The thread handle carries no modelled state.
look_for_keys does not exist before _parse_options assigns it; it is
modelled as initially false. -/
structure SSHReverse where
  server : List Char
  remote : List Char
  bind_port_min : Int
  bind_port_max : Int
  bind_port_try : Int
  bind_port_now : Option Int
  username : Option (List Char)
  look_for_keys : Bool
  stop : Bool
  client_list : List Nat
  client_curr : Int
  client_file : List (List Char)
  client_extra : List Extra
  closed : List Nat
  next_id : Nat
deriving DecidableEq, Repr

/-- The state built by __init__ for an already-normalised integer port
range (the shape used by the example in the class docstring). -/
def mkInit (server remote : List Char) (mn mx tp : Int)
    (username : Option (List Char)) : SSHReverse :=
  { server := server
    remote := remote
    bind_port_min := mn
    bind_port_max := mx
    bind_port_try := tp
    bind_port_now := Option.none
    username := username
    look_for_keys := false
    stop := false
    client_list := []
    client_curr := -1
    client_file := []
    client_extra := []
    closed := []
    next_id := 0 }

/-- Placeholder for getpass.getuser(). -/
def defaultUser : List Char := ['u']

/-- External world of one create call: whether client.connect
succeeds, whether the plain socket connect to the destination
succeeds, how the transport answers each port-forward request, and
fuel bounding the binder loop. -/
structure Oracle where
  connectOk : Bool
  remoteOk : Bool
  bindResp : Int → BindResp
  bindFuel : Nat

/-- Calls that create performs on the outside world, in order. -/
inductive Effect
  | connectAttempt
  | remoteCheck (ok : Bool)
  | bindRequest (port : Int)
  | threadStart
deriving DecidableEq, Repr

/-- How a create call returns: normally, with a Python exception
propagating to the caller, or not at all (binder fuel ran out, the
Python loop would still be running). -/
inductive CreateOutcome
  | ok
  | raised (e : PyErr)
  | diverged
deriving DecidableEq, Repr

/-- The attribute assignments of _parse_options: username defaults to
getpass.getuser() when unset, and look_for_keys is set to True. -/
def parseStage (st : SSHReverse) : SSHReverse :=
  { st with
    username := match st.username with
                | Option.none => some defaultUser
                | some u => some u
    look_for_keys := true }

/-- The client setter: append the new client to _client_list and
advance _client_curr. -/
def pushClient (st : SSHReverse) : SSHReverse :=
  { st with
    client_list := st.client_list ++ [st.next_id]
    client_curr := st.client_curr + 1
    next_id := st.next_id + 1 }

/-- The effect trace of a binder run: the connect attempt and the
passed destination check come first, then one bind request per probed
port. -/
def bindEffects (probes : List Int) : List Effect :=
  Effect.connectAttempt :: Effect.remoteCheck true ::
    probes.map Effect.bindRequest

/-- Finish create from the binder result `r` (probes paired with the
outcome): on a bound port record bind_port_now, set self.stop = False
and start the tunnel thread; on exhaustion or another error re-raise
with the state as pushed; nothing is ever popped or closed. -/
def finishBind (st2 : SSHReverse) (r : List Int × BindOutcome) :
    CreateOutcome × SSHReverse × List Effect :=
  match r with
  | (probes, BindOutcome.bound p) =>
    (CreateOutcome.ok,
      { st2 with bind_port_now := some p, stop := false },
      bindEffects probes ++ [Effect.threadStart])
  | (probes, BindOutcome.exhausted) =>
    (CreateOutcome.raised PyErr.exhaustedRange, st2, bindEffects probes)
  | (probes, BindOutcome.otherError) =>
    (CreateOutcome.raised PyErr.forwardOtherError, st2, bindEffects probes)
  | (probes, BindOutcome.fuelOut) =>
    (CreateOutcome.diverged, st2, bindEffects probes)

/-- The part of create after the two get_host_port calls succeeded:
construct the SSHClient and push it (the client setter), then
_connect_to_server, then _test_remote_connectable, then
_try_bind_server_port, then the thread start.  Every failure
re-raises with the state as mutated so far.  pushClient leaves the
range fields untouched, so the binder reads the range from st1. -/
def createAfterParse (st1 : SSHReverse) (o : Oracle) :
    CreateOutcome × SSHReverse × List Effect :=
  if o.connectOk = false then
    (CreateOutcome.raised PyErr.connectError, pushClient st1,
      [Effect.connectAttempt])
  else if o.remoteOk = false then
    (CreateOutcome.raised PyErr.destUnreachable, pushClient st1,
      [Effect.connectAttempt, Effect.remoteCheck false])
  else
    finishBind (pushClient st1)
      (tryBindAux st1.bind_port_min st1.bind_port_max st1.bind_port_try
        o.bindResp o.bindFuel st1.bind_port_try)

/-- create: _parse_options (which sets username and look_for_keys and
parses the server and remote endpoint strings with get_host_port,
either of which can raise ValueError), then the rest.  SSH_PORT
is 22. -/
def create (st : SSHReverse) (o : Oracle) :
    CreateOutcome × SSHReverse × List Effect :=
  match get_host_port st.server 22 with
  | Except.error e => (CreateOutcome.raised e, parseStage st, [])
  | Except.ok _ =>
    match get_host_port st.remote 22 with
    | Except.error e => (CreateOutcome.raised e, parseStage st, [])
    | Except.ok _ => createAfterParse (parseStage st) o

/-- client_remove: None and no change when _client_curr is -1,
otherwise decrement _client_curr and pop the last client. -/
def client_remove (st : SSHReverse) : Option Nat × SSHReverse :=
  if st.client_curr = -1 then (Option.none, st)
  else
    (st.client_list.getLast?,
      { st with
        client_curr := st.client_curr - 1
        client_list := st.client_list.dropLast })

/-- The tail of remove on a nonempty client list: pop the current
client with client_remove and close it.  (Were client_remove to
return None with a nonempty list, Python would raise on None.close();
that needs _client_curr out of step with _client_list and is
unreachable from the modelled operations.) -/
def removePop (st1 : SSHReverse) : SSHReverse :=
  match (client_remove st1).1 with
  | Option.none => (client_remove st1).2
  | some c =>
    { (client_remove st1).2 with
      closed := (client_remove st1).2.closed ++ [c] }

/-- remove: set self.stop = True first, return early when
client_count is 0, otherwise pop the current client and close it.
Setting the stop flag does not change the client list, so the
emptiness test reads the list of the original state. -/
def remove (st : SSHReverse) : SSHReverse :=
  if st.client_list.length = 0 then { st with stop := true }
  else removePop { st with stop := true }

/-- One public operation of the session manager. -/
inductive Op
  | opCreate (o : Oracle)
  | opRemove

/-- State effect of one operation (create's result state, or remove).
The acceptor thread mutates the object only through remove; a relay
handler only reads self.stop. -/
def step (st : SSHReverse) : Op → SSHReverse
  | Op.opCreate o => (create st o).2.1
  | Op.opRemove => remove st

/-- Run a sequence of manager operations from a state. -/
def run (st : SSHReverse) (ops : List Op) : SSHReverse :=
  ops.foldl step st

/-- Python list indexing with a possibly negative index. -/
def pyIndex {α : Type} (xs : List α) (i : Int) : Except PyErr α :=
  let j := if i < 0 then (xs.length : Int) + i else i
  if j < 0 then Except.error PyErr.indexError
  else
    match xs.get? j.toNat with
    | some x => Except.ok x
    | Option.none => Except.error PyErr.indexError

/-- The status_file property: None when _client_curr is -1, otherwise
_client_extra[_client_curr][1]. -/
def status_file (st : SSHReverse) : Except PyErr (Option (List Char)) :=
  if st.client_curr = -1 then Except.ok Option.none
  else
    match pyIndex st.client_extra st.client_curr with
    | Except.ok e => Except.ok (some e.statusFile)
    | Except.error err => Except.error err

/-- The client_extra property: None when _client_curr is -1, otherwise
_client_extra[_client_curr]. -/
def client_extra_prop (st : SSHReverse) : Except PyErr (Option Extra) :=
  if st.client_curr = -1 then Except.ok Option.none
  else
    match pyIndex st.client_extra st.client_curr with
    | Except.ok e => Except.ok (some e)
    | Except.error err => Except.error err

/-- Outcome of one recv call inside the handler loop: a byte count
(0 means the peer closed) or a raised exception. -/
inductive RecvR
  | bytes (n : Nat)
  | raised
deriving DecidableEq, Repr

/-- Outcome of one send call inside the handler loop. -/
inductive SendR
  | sent
  | raised
deriving DecidableEq, Repr

/-- What the outside world does in one iteration of the handler copy
loop: whether select raises, the value of self.stop read after select
returns, which of the two descriptors select reports ready, and the
outcomes of the recv and send calls that would then run. -/
structure IterEvent where
  selectRaised : Bool
  stopFlag : Bool
  sockReady : Bool
  chanReady : Bool
  sockRecv : RecvR
  chanSend : SendR
  chanRecv : RecvR
  sockSend : SendR
deriving DecidableEq, Repr

/-- Result of one iteration: keep looping, leave via break, or leave
because an exception propagates out of the loop. -/
inductive IterOut
  | next
  | brkOut
  | excOut
deriving DecidableEq, Repr

/-- One iteration of the handler while-loop, in source order: select,
the stop check, the sock branch (recv, break on empty, chan.send),
then the chan branch (recv, break on empty, sock.send). -/
def iterStep (e : IterEvent) : IterOut :=
  if e.selectRaised then IterOut.excOut
  else if e.stopFlag then IterOut.brkOut
  else
    let sockPhase : IterOut :=
      if e.sockReady then
        match e.sockRecv with
        | RecvR.raised => IterOut.excOut
        | RecvR.bytes 0 => IterOut.brkOut
        | RecvR.bytes (Nat.succ _) =>
          match e.chanSend with
          | SendR.raised => IterOut.excOut
          | SendR.sent => IterOut.next
      else IterOut.next
    match sockPhase with
    | IterOut.next =>
      if e.chanReady then
        match e.chanRecv with
        | RecvR.raised => IterOut.excOut
        | RecvR.bytes 0 => IterOut.brkOut
        | RecvR.bytes (Nat.succ _) =>
          match e.sockSend with
          | SendR.raised => IterOut.excOut
          | SendR.sent => IterOut.next
      else IterOut.next
    | out => out

/-- How the copy loop of handler ends over a finite script of
iteration events. -/
inductive LoopExit
  | brk
  | exc
  | runOut
deriving DecidableEq, Repr

/-- Run the handler copy loop over the script: break and exceptions
end it, otherwise the next iteration runs; an exhausted script leaves
the loop still running. -/
def handlerLoop : List IterEvent → LoopExit
  | [] => LoopExit.runOut
  | e :: rest =>
    match iterStep e with
    | IterOut.next => handlerLoop rest
    | IterOut.brkOut => LoopExit.brk
    | IterOut.excOut => LoopExit.exc

/-- The two resources the handler should release. -/
inductive Closable
  | chanRes
  | sockRes
deriving DecidableEq, Repr

/-- The close calls the handler performs after the loop: chan.close()
then sock.close() run only on the break paths; there is no
try/finally, so an exception propagating out of the loop skips both,
and a still-running loop has closed nothing yet. -/
def handlerCloses (script : List IterEvent) : List Closable :=
  match handlerLoop script with
  | LoopExit.brk => [Closable.chanRes, Closable.sockRes]
  | LoopExit.exc => []
  | LoopExit.runOut => []

/-- A concrete initial object: server "s", remote "r" (both parse with
the default port), bind range 7..9 preferring 7. -/
def initSt : SSHReverse := mkInit ['s'] ['r'] 7 9 7 Option.none

/-- A world where every step of create succeeds at the first port. -/
def okOracle : Oracle := ⟨true, true, fun _ => BindResp.ok, 5⟩

/-- A world where the transport rejects every port with SSHException. -/
def rejOracle : Oracle := ⟨true, true, fun _ => BindResp.sshExc, 9⟩

/-- A world where the transport rejects port 7 and accepts any other. -/
def accept8Oracle : Oracle :=
  ⟨true, true, fun p => if p = 7 then BindResp.sshExc else BindResp.ok, 5⟩

/-- A world where the destination reachability test fails. -/
def remFailOracle : Oracle := ⟨true, false, fun _ => BindResp.ok, 5⟩

theorem splitFirstColon_of_not_mem (s : List Char) (h : ':' ∉ s) :
    splitFirstColon s = Option.none := by
  induction s with
  | nil => rfl
  | cons ch rest ih =>
    have h1 : ¬ ch = ':' := fun hc => h (by rw [hc]; exact List.mem_cons_self _ _)
    have h2 : ':' ∉ rest := fun hm => h (List.mem_cons_of_mem _ hm)
    unfold splitFirstColon
    rw [if_neg h1, ih h2]

theorem splitFirstColon_append (h t : List Char) (hh : ':' ∉ h) :
    splitFirstColon (h ++ ':' :: t) = some (h, t) := by
  induction h with
  | nil => simp [splitFirstColon]
  | cons ch rest ih =>
    have h1 : ¬ ch = ':' := fun hc => hh (by rw [hc]; exact List.mem_cons_self _ _)
    have h2 : ':' ∉ rest := fun hm => hh (List.mem_cons_of_mem _ hm)
    rw [List.cons_append]
    unfold splitFirstColon
    rw [if_neg h1, ih h2]

theorem parseStage_fields (st : SSHReverse) :
    (parseStage st).client_list = st.client_list ∧
    (parseStage st).client_curr = st.client_curr ∧
    (parseStage st).closed = st.closed ∧
    (parseStage st).client_extra = st.client_extra ∧
    (parseStage st).next_id = st.next_id ∧
    (parseStage st).bind_port_now = st.bind_port_now :=
  ⟨rfl, rfl, rfl, rfl, rfl, rfl⟩

theorem finishBind_state (st2 : SSHReverse) (r : List Int × BindOutcome) :
    (finishBind st2 r).2.1.client_list = st2.client_list ∧
    (finishBind st2 r).2.1.client_curr = st2.client_curr ∧
    (finishBind st2 r).2.1.closed = st2.closed ∧
    (finishBind st2 r).2.1.client_extra = st2.client_extra := by
  rcases r with ⟨probes, out⟩
  cases out <;> exact ⟨rfl, rfl, rfl, rfl⟩

theorem createAfterParse_state (st : SSHReverse) (o : Oracle) :
    (createAfterParse st o).2.1.client_list = st.client_list ++ [st.next_id] ∧
    (createAfterParse st o).2.1.client_curr = st.client_curr + 1 ∧
    (createAfterParse st o).2.1.closed = st.closed ∧
    (createAfterParse st o).2.1.client_extra = st.client_extra := by
  unfold createAfterParse
  split
  · exact ⟨rfl, rfl, rfl, rfl⟩
  · split
    · exact ⟨rfl, rfl, rfl, rfl⟩
    · have hf := finishBind_state (pushClient st)
        (tryBindAux st.bind_port_min st.bind_port_max st.bind_port_try
          o.bindResp o.bindFuel st.bind_port_try)
      exact ⟨hf.1, hf.2.1, hf.2.2.1, hf.2.2.2⟩

theorem client_remove_pres (st : SSHReverse) :
    (client_remove st).2.stop = st.stop ∧
    (client_remove st).2.bind_port_now = st.bind_port_now ∧
    (client_remove st).2.client_extra = st.client_extra := by
  unfold client_remove
  split <;> exact ⟨rfl, rfl, rfl⟩

theorem client_remove_curr (st : SSHReverse) :
    (client_remove st).2.client_curr = st.client_curr ∨
    ((client_remove st).2.client_curr = st.client_curr - 1 ∧
      ¬ st.client_curr = -1) := by
  unfold client_remove
  split
  · exact Or.inl rfl
  · rename_i hc
    exact Or.inr ⟨rfl, hc⟩

theorem removePop_pres (st1 : SSHReverse) :
    (removePop st1).stop = (client_remove st1).2.stop ∧
    (removePop st1).bind_port_now = (client_remove st1).2.bind_port_now ∧
    (removePop st1).client_extra = (client_remove st1).2.client_extra ∧
    (removePop st1).client_curr = (client_remove st1).2.client_curr := by
  unfold removePop
  split <;> exact ⟨rfl, rfl, rfl, rfl⟩

theorem remove_stop (st : SSHReverse) : (remove st).stop = true := by
  unfold remove
  split
  · rfl
  · rw [(removePop_pres _).1]
    exact (client_remove_pres { st with stop := true }).1

theorem remove_bind_port_now (st : SSHReverse) :
    (remove st).bind_port_now = st.bind_port_now := by
  unfold remove
  split
  · rfl
  · rw [(removePop_pres _).2.1]
    exact (client_remove_pres { st with stop := true }).2.1

theorem remove_client_extra (st : SSHReverse) :
    (remove st).client_extra = st.client_extra := by
  unfold remove
  split
  · rfl
  · rw [(removePop_pres _).2.2.1]
    exact (client_remove_pres { st with stop := true }).2.2

theorem remove_client_curr (st : SSHReverse) :
    (remove st).client_curr = st.client_curr ∨
    ((remove st).client_curr = st.client_curr - 1 ∧
      ¬ st.client_curr = -1) := by
  unfold remove
  split
  · exact Or.inl rfl
  · rw [(removePop_pres _).2.2.2]
    exact client_remove_curr { st with stop := true }

theorem create_cases (st : SSHReverse) (o : Oracle) :
    (∃ e, create st o = (CreateOutcome.raised e, parseStage st, [])) ∨
    create st o = createAfterParse (parseStage st) o := by
  unfold create
  split
  · exact Or.inl ⟨_, rfl⟩
  · split
    · exact Or.inl ⟨_, rfl⟩
    · exact Or.inr rfl

theorem create_client_extra (st : SSHReverse) (o : Oracle) :
    (create st o).2.1.client_extra = st.client_extra := by
  rcases create_cases st o with ⟨e, he⟩ | he <;> rw [he]
  · rfl
  · exact (createAfterParse_state (parseStage st) o).2.2.2

theorem create_client_curr (st : SSHReverse) (o : Oracle) :
    (create st o).2.1.client_curr = st.client_curr ∨
    (create st o).2.1.client_curr = st.client_curr + 1 := by
  rcases create_cases st o with ⟨e, he⟩ | he <;> rw [he]
  · exact Or.inl rfl
  · exact Or.inr (createAfterParse_state (parseStage st) o).2.1

theorem create_ok_client_curr (st : SSHReverse) (o : Oracle)
    (h : (create st o).1 = CreateOutcome.ok) :
    (create st o).2.1.client_curr = st.client_curr + 1 := by
  rcases create_cases st o with ⟨e, he⟩ | he
  · rw [he] at h
    simp at h
  · rw [he] at h ⊢
    exact (createAfterParse_state (parseStage st) o).2.1

theorem step_client_extra (st : SSHReverse) (op : Op) :
    (step st op).client_extra = st.client_extra := by
  cases op with
  | opCreate o => exact create_client_extra st o
  | opRemove => exact remove_client_extra st

theorem step_client_curr_ge (st : SSHReverse) (op : Op)
    (h : -1 ≤ st.client_curr) : -1 ≤ (step st op).client_curr := by
  cases op with
  | opCreate o =>
    show -1 ≤ (create st o).2.1.client_curr
    rcases create_client_curr st o with h1 | h1 <;> rw [h1] <;> omega
  | opRemove =>
    show -1 ≤ (remove st).client_curr
    rcases remove_client_curr st with h1 | ⟨h1, h2⟩ <;> rw [h1] <;> omega

theorem run_client_extra (st : SSHReverse) (ops : List Op) :
    (run st ops).client_extra = st.client_extra := by
  induction ops generalizing st with
  | nil => rfl
  | cons op rest ih =>
    show (run (step st op) rest).client_extra = st.client_extra
    rw [ih (step st op), step_client_extra]

theorem run_client_curr_ge (st : SSHReverse) (ops : List Op)
    (h : -1 ≤ st.client_curr) : -1 ≤ (run st ops).client_curr := by
  induction ops generalizing st with
  | nil => exact h
  | cons op rest ih =>
    show -1 ≤ (run (step st op) rest).client_curr
    exact ih (step st op) (step_client_curr_ge st op h)

theorem status_file_of_empty_extra (st : SSHReverse)
    (h1 : st.client_extra = []) (h2 : ¬ st.client_curr = -1)
    (h3 : -1 ≤ st.client_curr) :
    status_file st = Except.error PyErr.indexError ∧
    client_extra_prop st = Except.error PyErr.indexError := by
  have hge : 0 ≤ st.client_curr := by omega
  have hpy : pyIndex st.client_extra st.client_curr =
      Except.error PyErr.indexError := by
    unfold pyIndex
    rw [if_neg (by omega : ¬ st.client_curr < 0)]
    rw [if_neg (by omega : ¬ st.client_curr < 0)]
    rw [h1]
    simp
  constructor
  · unfold status_file
    rw [if_neg h2, hpy]
  · unfold client_extra_prop
    rw [if_neg h2, hpy]

theorem finishBind_effects (st2 : SSHReverse) (r : List Int × BindOutcome) :
    (finishBind st2 r).2.2 = bindEffects r.1 ∨
    (finishBind st2 r).2.2 = bindEffects r.1 ++ [Effect.threadStart] := by
  rcases r with ⟨probes, out⟩
  cases out
  · exact Or.inr rfl
  · exact Or.inl rfl
  · exact Or.inl rfl
  · exact Or.inl rfl

theorem bindEffects_has_remote_check (probes : List Int) :
    Effect.remoteCheck true ∈ bindEffects probes :=
  List.mem_cons_of_mem _ (List.mem_cons_self _ _)

theorem createAfterParse_effects (st : SSHReverse) (o : Oracle) :
    (createAfterParse st o).2.2 = [Effect.connectAttempt] ∨
    (createAfterParse st o).2.2 =
      [Effect.connectAttempt, Effect.remoteCheck false] ∨
    Effect.remoteCheck true ∈ (createAfterParse st o).2.2 := by
  unfold createAfterParse
  split
  · exact Or.inl rfl
  · split
    · exact Or.inr (Or.inl rfl)
    · refine Or.inr (Or.inr ?_)
      rcases finishBind_effects (pushClient st)
        (tryBindAux st.bind_port_min st.bind_port_max st.bind_port_try
          o.bindResp o.bindFuel st.bind_port_try) with h | h <;> rw [h]
      · exact bindEffects_has_remote_check _
      · exact List.mem_append_left _ (bindEffects_has_remote_check _)

theorem createAfterParse_dest_fail (st : SSHReverse) (o : Oracle)
    (hc : o.connectOk = true) (hd : o.remoteOk = false) :
    createAfterParse st o = (CreateOutcome.raised PyErr.destUnreachable,
      pushClient st, [Effect.connectAttempt, Effect.remoteCheck false]) := by
  unfold createAfterParse
  rw [if_neg (by rw [hc]; simp), if_pos hd]

theorem create_parse_ok (st : SSHReverse) (o : Oracle)
    (sv rm : List Char × Int)
    (hs : get_host_port st.server 22 = Except.ok sv)
    (hr : get_host_port st.remote 22 = Except.ok rm) :
    create st o = createAfterParse (parseStage st) o := by
  unfold create
  rw [hs, hr]

theorem status_after_ok_create (st : SSHReverse) (o : Oracle)
    (hex : st.client_extra = []) (hge : -1 ≤ st.client_curr)
    (hok : (create st o).1 = CreateOutcome.ok) :
    status_file (create st o).2.1 = Except.error PyErr.indexError ∧
    client_extra_prop (create st o).2.1 = Except.error PyErr.indexError := by
  have hcu := create_ok_client_curr st o hok
  have hex2 : (create st o).2.1.client_extra = [] := by
    rw [create_client_extra]
    exact hex
  exact status_file_of_empty_extra _ hex2 (by rw [hcu]; omega)
    (by rw [hcu]; omega)

/-- Claim C1 (code_bug evaluation).  The claim says the binder probes
[preferred, ..., max, min, ..., preferred-1], each of the max-min+1
candidates exactly once, before raising exhaustion.  On the range
min 10000, max 10001, preferred 10000 with every request rejected by
SSHException, the code probes only port 10000 and raises the
exhausted-range error without ever probing 10001: after the reject
the candidate is first advanced to 10001, then (being equal to max)
immediately wrapped back to 10000 before any request, which triggers
the exhaustion test.  Port max is therefore skipped whenever
preferred < max. -/
theorem c1_bind_skips_max_port :
    tryBindPort 10000 10001 10000 (fun _ => BindResp.sshExc) 10 =
      ([10000], BindOutcome.exhausted) ∧
    (10001 : Int) ∉
      (tryBindPort 10000 10001 10000 (fun _ => BindResp.sshExc) 10).1 := by
  decide

/-- Claim C3, counterexample.  The claim says both the channel and the
socket are closed on every exit from the copy loop, including an
exception raised inside it.  In an execution whose first iteration
has the socket ready and sock.recv raising, the exception propagates
out of the handler and neither close call runs: there is no
try/finally around the loop. -/
theorem c3_counterexample :
    handlerLoop [⟨false, false, true, false, RecvR.raised, SendR.sent,
      RecvR.bytes 0, SendR.sent⟩] = LoopExit.exc ∧
    handlerCloses [⟨false, false, true, false, RecvR.raised, SendR.sent,
      RecvR.bytes 0, SendR.sent⟩] = [] := by
  decide

/-- Claim C3, amended.  On the break exits of the copy loop (stop flag
observed set, or a zero-byte read from either side) the handler
closes the channel and then the socket; when an exception
(from select, recv or send) leaves the loop, it propagates out of the
handler and neither endpoint is closed. -/
theorem c3_loop_exit_closes :
    (∀ script : List IterEvent, handlerLoop script = LoopExit.brk →
      handlerCloses script = [Closable.chanRes, Closable.sockRes]) ∧
    (∀ script : List IterEvent, handlerLoop script = LoopExit.exc →
      handlerCloses script = []) := by
  constructor
  · intro script h
    unfold handlerCloses
    rw [h]
  · intro script h
    unfold handlerCloses
    rw [h]

/-- Witness for C3 amended: a concrete stop-flag exit closes channel
and socket. -/
theorem c3_loop_exit_closes_witness :
    handlerCloses [⟨false, true, false, false, RecvR.bytes 0, SendR.sent,
      RecvR.bytes 0, SendR.sent⟩] = [Closable.chanRes, Closable.sockRes] :=
  c3_loop_exit_closes.1 [⟨false, true, false, false, RecvR.bytes 0,
    SendR.sent, RecvR.bytes 0, SendR.sent⟩] (by decide)

/-- Claim C7, counterexample.  remove() on an empty stack is claimed
to leave every attribute unchanged, but its first statement is
self.stop = True: on a freshly constructed object with stop False,
remove flips stop to True. -/
theorem c7_counterexample :
    (mkInit ['s'] ['r'] 7 9 7 Option.none).client_list = [] ∧
    (mkInit ['s'] ['r'] 7 9 7 Option.none).stop = false ∧
    (remove (mkInit ['s'] ['r'] 7 9 7 Option.none)).stop = true := by
  decide

/-- Claim C7, amended.  remove() on an empty stack never raises and is
idempotent, and it leaves the stack, the current-session index and
every other attribute unchanged except the stop flag, which it sets
to true. -/
theorem c7_remove_empty (st : SSHReverse) (h : st.client_list = []) :
    remove st = { st with stop := true } ∧
    remove (remove st) = remove st := by
  have h1 : remove st = { st with stop := true } := by
    unfold remove
    rw [if_pos (by rw [h]; rfl)]
  refine ⟨h1, ?_⟩
  rw [h1]
  have h2 : ({ st with stop := true } : SSHReverse).client_list = [] := h
  unfold remove
  rw [if_pos (by rw [h2]; rfl)]

/-- Witness for C7 amended at a concrete empty-stack state. -/
theorem c7_remove_empty_witness :
    remove (mkInit ['h'] ['d'] 1 2 1 Option.none) =
      { mkInit ['h'] ['d'] 1 2 1 Option.none with stop := true } ∧
    remove (remove (mkInit ['h'] ['d'] 1 2 1 Option.none)) =
      remove (mkInit ['h'] ['d'] 1 2 1 Option.none) :=
  c7_remove_empty (mkInit ['h'] ['d'] 1 2 1 Option.none) rfl

/-- Claim C8, counterexample.  The claim says a single integer
bind_port value v makes construction succeed with
min = max = try = v.  In the code the normalisation guard is
`bind_port is None or len(bind_port) != 3`, and len() of an int
raises TypeError, so construction with a bare integer port fails. -/
theorem c8_counterexample :
    normalizeBindPort (PyVal.int 7) = Except.error PyErr.typeError ∧
    normalizeBindPort (PyVal.int 7) ≠
      Except.ok (PyVal.int 7, PyVal.int 7, PyVal.int 7) := by
  refine ⟨rfl, fun h => ?_⟩
  rw [show normalizeBindPort (PyVal.int 7) = Except.error PyErr.typeError
    from rfl] at h
  exact Except.noConfusion h

/-- Claim C8, amended.  A length-3 tuple is split componentwise into
(min, max, try); None and any sized value of length other than 3 set
all three fields to the value itself; a length-3 string is also split
componentwise, into its one-character substrings; and a bare integer,
having no len(), makes construction raise TypeError. -/
theorem c8_normalize_bind_port :
    (∀ a b c : PyVal,
      normalizeBindPort (PyVal.tuple [a, b, c]) = Except.ok (a, b, c)) ∧
    (normalizeBindPort PyVal.pynone =
      Except.ok (PyVal.pynone, PyVal.pynone, PyVal.pynone)) ∧
    (∀ xs : List PyVal, xs.length ≠ 3 →
      normalizeBindPort (PyVal.tuple xs) =
        Except.ok (PyVal.tuple xs, PyVal.tuple xs, PyVal.tuple xs)) ∧
    (∀ s : List Char, s.length ≠ 3 →
      normalizeBindPort (PyVal.str s) =
        Except.ok (PyVal.str s, PyVal.str s, PyVal.str s)) ∧
    (normalizeBindPort (PyVal.str ['4', '4', '3']) =
      Except.ok (PyVal.str ['4'], PyVal.str ['4'], PyVal.str ['3'])) ∧
    (∀ n : Int, normalizeBindPort (PyVal.int n) =
      Except.error PyErr.typeError) := by
  refine ⟨fun a b c => rfl, rfl, ?_, ?_, rfl, fun n => rfl⟩
  · intro xs h
    unfold normalizeBindPort
    rw [if_neg (by simp [isPyNone])]
    show (match pyLen (PyVal.tuple xs) with
      | Option.none => Except.error PyErr.typeError
      | some n => _) = _
    rw [show pyLen (PyVal.tuple xs) = some xs.length from rfl]
    simp only [if_pos h]
  · intro s h
    unfold normalizeBindPort
    rw [if_neg (by simp [isPyNone])]
    show (match pyLen (PyVal.str s) with
      | Option.none => Except.error PyErr.typeError
      | some n => _) = _
    rw [show pyLen (PyVal.str s) = some s.length from rfl]
    simp only [if_pos h]

/-- Witness for C8 amended: a length-1 tuple is copied into all three
fields. -/
theorem c8_normalize_bind_port_witness :
    normalizeBindPort (PyVal.tuple [PyVal.int 1]) =
      Except.ok (PyVal.tuple [PyVal.int 1], PyVal.tuple [PyVal.int 1],
        PyVal.tuple [PyVal.int 1]) :=
  c8_normalize_bind_port.2.2.1 [PyVal.int 1] (by decide)

/-- Claim C9 (confirmed).  get_host_port returns (spec, default_port)
when the specification has no colon, and splits at the first colon
into the host and the Python int() of the port text otherwise. -/
theorem c9_get_host_port (spec : List Char) (d : Int) :
    (':' ∉ spec → get_host_port spec d = Except.ok (spec, d)) ∧
    (∀ h t p, spec = h ++ ':' :: t → ':' ∉ h →
      pyIntOfString t = some p →
      get_host_port spec d = Except.ok (h, p)) := by
  constructor
  · intro hn
    unfold get_host_port
    rw [splitFirstColon_of_not_mem spec hn]
  · intro h t p hspec hh hp
    subst hspec
    unfold get_host_port
    rw [splitFirstColon_append h t hh]
    show (match pyIntOfString t with
      | some n => Except.ok (h, n)
      | Option.none => Except.error PyErr.valueError) = _
    rw [hp]

/-- Witness for C9 at the specifications "a" and "a:7". -/
theorem c9_get_host_port_witness :
    get_host_port ['a'] 22 = Except.ok (['a'], 22) ∧
    get_host_port ['a', ':', '7'] 22 = Except.ok (['a'], 7) :=
  ⟨(c9_get_host_port ['a'] 22).1 (by decide),
    (c9_get_host_port ['a', ':', '7'] 22).2 ['a'] ['7'] 7 rfl
      (by decide) (by decide)⟩

/-- Claim C2, counterexample.  With both endpoints parsing and the
transport connecting, a port-range exhaustion failure in create
propagates to the caller, yet the SSHClient appended by the client
setter at the start of create is still on the stack
(client list [0], current index 0) and its close method was never
called: nothing is popped or closed on the failure path. -/
theorem c2_counterexample :
    (create initSt rejOracle).1 = CreateOutcome.raised PyErr.exhaustedRange ∧
    initSt.client_list = [] ∧
    initSt.closed = [] ∧
    (create initSt rejOracle).2.1.client_list = [0] ∧
    (create initSt rejOracle).2.1.client_curr = 0 ∧
    (create initSt rejOracle).2.1.closed = [] := by
  decide

/-- Claim C2, amended.  Every create that gets past endpoint parsing —
whether it later succeeds or fails on connect, on the destination
check, or on the port range — leaves the freshly appended client in
_client_list with _client_curr advanced, and closes no client; in
particular a failed create leaves a partial Session on the stack and
the opened transport unclosed while the error propagates. -/
theorem c2_create_failure_state (st : SSHReverse) (o : Oracle)
    (sv rm : List Char × Int)
    (hs : get_host_port st.server 22 = Except.ok sv)
    (hr : get_host_port st.remote 22 = Except.ok rm) :
    (create st o).2.1.client_list = st.client_list ++ [st.next_id] ∧
    (create st o).2.1.client_curr = st.client_curr + 1 ∧
    (create st o).2.1.closed = st.closed := by
  rw [create_parse_ok st o sv rm hs hr]
  have h1 := createAfterParse_state (parseStage st) o
  exact ⟨h1.1, h1.2.1, h1.2.2.1⟩

/-- Witness for C2 amended at the concrete exhaustion failure. -/
theorem c2_create_failure_state_witness :
    (create initSt rejOracle).2.1.client_list =
      initSt.client_list ++ [initSt.next_id] ∧
    (create initSt rejOracle).2.1.client_curr = initSt.client_curr + 1 ∧
    (create initSt rejOracle).2.1.closed = initSt.closed :=
  c2_create_failure_state initSt rejOracle (['s'], 22) (['r'], 22) rfl rfl

/-- Claim C4, counterexample.  After two successful creates and one
remove, the stop flag is true while the first Session (client 0) is
still on the stack; a further create resets the shared flag to false
with client 0 still on the stack — the flag is reset during that
Session's lifetime. -/
theorem c4_counterexample :
    (run initSt [Op.opCreate okOracle, Op.opCreate okOracle,
      Op.opRemove]).stop = true ∧
    (run initSt [Op.opCreate okOracle, Op.opCreate okOracle,
      Op.opRemove]).client_list = [0] ∧
    (run initSt [Op.opCreate okOracle, Op.opCreate okOracle, Op.opRemove,
      Op.opCreate okOracle]).stop = false ∧
    (run initSt [Op.opCreate okOracle, Op.opCreate okOracle, Op.opRemove,
      Op.opCreate okOracle]).client_list = [0, 2] := by
  decide

/-- Claim C4, amended.  The object carries a single stop flag shared
by every Session.  remove always leaves the flag true, and the only
manager operation that can make the flag false is a create (which
sets self.stop = False on its success path); the acceptor loop
touches the flag only through remove, and a relay only reads it. -/
theorem c4_stop_reset_only_by_create :
    (∀ st : SSHReverse, (remove st).stop = true) ∧
    (∀ (st : SSHReverse) (op : Op), (step st op).stop = false →
      ∃ o, op = Op.opCreate o) := by
  refine ⟨remove_stop, ?_⟩
  intro st op h
  cases op with
  | opCreate o => exact ⟨o, rfl⟩
  | opRemove =>
    rw [show step st Op.opRemove = remove st from rfl, remove_stop st] at h
    exact absurd h (by simp)

/-- Witness for C4 amended: a concrete remove leaves stop true, and a
concrete flag-clearing step is a create. -/
theorem c4_stop_reset_only_by_create_witness :
    (remove initSt).stop = true ∧
    ∃ o, Op.opCreate okOracle = Op.opCreate o :=
  ⟨c4_stop_reset_only_by_create.1 initSt,
    c4_stop_reset_only_by_create.2 initSt (Op.opCreate okOracle)
      (by decide)⟩

/-- Claim C5 (confirmed).  When the pre-flight destination check
fails (endpoints parse, the transport connects, the plain socket
connect to the destination raises), create raises the destination
error to the caller and its effect trace contains no
request_port_forward call; moreover in every run of create, a bind
request in the trace implies the destination check passed earlier in
the same trace. -/
theorem c5_preflight (st : SSHReverse) (o : Oracle) (sv rm : List Char × Int)
    (hs : get_host_port st.server 22 = Except.ok sv)
    (hr : get_host_port st.remote 22 = Except.ok rm)
    (hc : o.connectOk = true) (hd : o.remoteOk = false) :
    (create st o).1 = CreateOutcome.raised PyErr.destUnreachable ∧
    (∀ p, Effect.bindRequest p ∉ (create st o).2.2) ∧
    (∀ (st2 : SSHReverse) (o2 : Oracle) (p : Int),
      Effect.bindRequest p ∈ (create st2 o2).2.2 →
      Effect.remoteCheck true ∈ (create st2 o2).2.2) := by
  have hmain : create st o = (CreateOutcome.raised PyErr.destUnreachable,
      pushClient (parseStage st),
      [Effect.connectAttempt, Effect.remoteCheck false]) := by
    rw [create_parse_ok st o sv rm hs hr,
      createAfterParse_dest_fail (parseStage st) o hc hd]
  refine ⟨by rw [hmain], ?_, ?_⟩
  · intro p
    rw [hmain]
    simp
  · intro st2 o2 p hp
    rcases create_cases st2 o2 with ⟨e, he⟩ | he
    · rw [he] at hp
      simp at hp
    · rw [he] at hp ⊢
      rcases createAfterParse_effects (parseStage st2) o2 with h1 | h1 | h1
      · rw [h1] at hp
        simp at hp
      · rw [h1] at hp
        simp at hp
      · exact h1

/-- Witness for C5 at a concrete destination-unreachable world. -/
theorem c5_preflight_witness :
    (create initSt remFailOracle).1 =
      CreateOutcome.raised PyErr.destUnreachable :=
  (c5_preflight initSt remFailOracle (['s'], 22) (['r'], 22)
    rfl rfl rfl rfl).1

/-- Claim C6, counterexample.  bind_port_now is one attribute shared
by every Session: after a first create binds port 7, a second create
(rejecting 7, accepting 8) overwrites bind_port_now with 8 while the
first Session (client 0) is still on the stack, so the recorded port
of the first Session no longer equals the port negotiated for it. -/
theorem c6_counterexample :
    (run initSt [Op.opCreate okOracle]).bind_port_now = some 7 ∧
    (run initSt [Op.opCreate okOracle]).client_list = [0] ∧
    0 ∈ (run initSt [Op.opCreate okOracle,
      Op.opCreate accept8Oracle]).client_list ∧
    (run initSt [Op.opCreate okOracle,
      Op.opCreate accept8Oracle]).bind_port_now = some 8 := by
  decide

/-- Claim C6, amended.  bind_port_now is written only by a later
create (on successful negotiation); remove — and hence the acceptor
teardown, which acts through remove — never changes it, so as long as
no further create is executed the recorded bound port stays equal to
the port the binder accepted. -/
theorem c6_bound_port_stable (st : SSHReverse) (ops : List Op)
    (h : ∀ op ∈ ops, op = Op.opRemove) :
    (run st ops).bind_port_now = st.bind_port_now := by
  induction ops generalizing st with
  | nil => rfl
  | cons op rest ih =>
    have hop : op = Op.opRemove := h op (List.mem_cons_self _ _)
    subst hop
    have hrest : ∀ op2 ∈ rest, op2 = Op.opRemove :=
      fun op2 hm => h op2 (List.mem_cons_of_mem _ hm)
    show (run (step st Op.opRemove) rest).bind_port_now = st.bind_port_now
    rw [ih (step st Op.opRemove) hrest]
    exact remove_bind_port_now st

/-- Witness for C6 amended: two removes leave bind_port_now
unchanged. -/
theorem c6_bound_port_stable_witness :
    (run initSt [Op.opRemove, Op.opRemove]).bind_port_now =
      initSt.bind_port_now :=
  c6_bound_port_stable initSt [Op.opRemove, Op.opRemove] (by simp)

/-- Claim C10 (confirmed).  From any reachable state (any operation
sequence from a fresh object), a successful create leaves the
status_file and client_extra properties raising IndexError: create
appends to _client_list and advances _client_curr but nothing ever
appends to _client_extra (status-file creation is commented out).
The properties answer None exactly while _client_curr is -1. -/
theorem c10_status_file (server remote : List Char) (mn mx tp : Int)
    (u : Option (List Char)) (ops : List Op) (o : Oracle)
    (hok : (create (run (mkInit server remote mn mx tp u) ops) o).1 =
      CreateOutcome.ok) :
    status_file (create (run (mkInit server remote mn mx tp u) ops) o).2.1 =
      Except.error PyErr.indexError ∧
    client_extra_prop
        (create (run (mkInit server remote mn mx tp u) ops) o).2.1 =
      Except.error PyErr.indexError ∧
    (∀ ops2 : List Op,
      status_file (run (mkInit server remote mn mx tp u) ops2) =
          Except.ok Option.none ↔
        (run (mkInit server remote mn mx tp u) ops2).client_curr = -1) := by
  have hmain := status_after_ok_create (run (mkInit server remote mn mx tp u) ops) o
    (by rw [run_client_extra]; rfl)
    (run_client_curr_ge (mkInit server remote mn mx tp u) ops (le_refl (-1)))
    hok
  refine ⟨hmain.1, hmain.2, ?_⟩
  intro ops2
  constructor
  · intro hok2
    by_contra hne2
    have hsf := (status_file_of_empty_extra
      (run (mkInit server remote mn mx tp u) ops2)
      (by rw [run_client_extra]; rfl) hne2
      (run_client_curr_ge (mkInit server remote mn mx tp u) ops2
        (le_refl (-1)))).1
    rw [hsf] at hok2
    exact Except.noConfusion hok2
  · intro hc2
    unfold status_file
    rw [if_pos hc2]

/-- Witness for C10: a first successful create from the fresh object
makes status_file raise IndexError. -/
theorem c10_status_file_witness :
    status_file (create (run (mkInit ['s'] ['r'] 7 9 7 Option.none) [])
      okOracle).2.1 = Except.error PyErr.indexError :=
  (c10_status_file ['s'] ['r'] 7 9 7 Option.none [] okOracle (by decide)).1

end SshRev
